import Mathlib

/-!
Verification development for the Windows process-audio-capture core
(`src/win/audio_tap.cpp`, `src/win/win_audio_capture.cpp`).

The C++ code is shallowly embedded: machine integers become `Nat`/`Int`,
32-bit float samples are modelled as exact rationals (every value taken by
a sample in this pipeline is a rational; the 16-bit normalisation path is
exact in binary32 as well), HRESULT-returning OS calls become booleans or
`Option`s supplied by an environment record, and the raw byte buffer handed
to `ProcessAudioData` is modelled by its three reinterpretations (as float32,
int16 and int32 sample sequences), mirroring the `reinterpret_cast`s in the
source.
-/

namespace AudioTapModel

/-! ## Audio format model (`WAVEFORMATEX`, mmreg.h constants) -/

def WAVE_FORMAT_PCM : Nat := 1

def WAVE_FORMAT_IEEE_FLOAT : Nat := 3

def BITS_PER_BYTE : Nat := 8

/-- `WAVEFORMATEX` as used by `audio_tap.cpp` (the fields the code touches). -/
structure WAVEFORMATEX where
  wFormatTag : Nat
  nChannels : Nat
  nSamplesPerSec : Nat
  wBitsPerSample : Nat
  nBlockAlign : Nat
  nAvgBytesPerSec : Nat
  cbSize : Nat
deriving Repr, DecidableEq

/-- The fixed canonical format built by `AudioTap::InitializeAudioClientInCallback`
(`audio_tap.cpp:336-344`): IEEE float, stereo, 48 kHz, 32-bit. -/
def canonicalMixFormat : WAVEFORMATEX :=
  let channels := 2
  let bits := 32
  let rate := 48000
  let blockAlign := channels * bits / BITS_PER_BYTE
  { wFormatTag := WAVE_FORMAT_IEEE_FLOAT
    nChannels := channels
    nSamplesPerSec := rate
    wBitsPerSample := bits
    nBlockAlign := blockAlign
    nAvgBytesPerSec := rate * blockAlign
    cbSize := 0 }

def AUDCLNT_STREAMFLAGS_LOOPBACK : Nat := 0x00020000

def AUDCLNT_STREAMFLAGS_EVENTCALLBACK : Nat := 0x00040000

def AUDCLNT_STREAMFLAGS_AUTOCONVERTPCM : Nat := 0x80000000

/-- The stream flags passed to `IAudioClient::Initialize`
(`audio_tap.cpp:349-355`): loopback, event-driven buffering, automatic PCM
conversion. -/
def clientInitStreamFlags : Nat :=
  AUDCLNT_STREAMFLAGS_LOOPBACK ||| AUDCLNT_STREAMFLAGS_EVENTCALLBACK |||
    AUDCLNT_STREAMFLAGS_AUTOCONVERTPCM

/-! ## Raw buffers and the format normaliser (`AudioTap::ProcessAudioData`) -/

/-- A raw byte buffer, modelled by its three reinterpretations used by
`ProcessAudioData`'s `reinterpret_cast`s: the same bytes viewed as 32-bit
float samples, 16-bit integer samples, and 32-bit integer samples. -/
structure RawBuffer where
  asFloat32 : List ℚ
  asInt16 : List Int
  asInt32 : List Int
deriving Repr, DecidableEq

/-- The 16-bit normalisation step of `ProcessAudioData`
(`audio_tap.cpp:452`): `static_cast<float>(s) / 32768.0f`. Exact in
binary32 for 16-bit inputs, hence modelled over `ℚ`. -/
def normalizeInt16 (s : Int) : ℚ := (s : ℚ) / 32768

/-- The 32-bit normalisation step of `ProcessAudioData`
(`audio_tap.cpp:459`): `static_cast<float>(s) / 2147483648.0f`. -/
def normalizeInt32 (s : Int) : ℚ := (s : ℚ) / 2147483648

/-- One invocation of the user `AudioDataCallback`: interleaved float32
samples, byte length, channel count, sample rate. -/
structure CallbackInvocation where
  samples : List ℚ
  byteLen : Nat
  channels : Nat
  sampleRate : Nat
deriving Repr, DecidableEq

/-- `AudioTap::ProcessAudioData` (`audio_tap.cpp:426-479`).

Inputs mirror the member state the function reads: whether a callback is
registered (`callback_`), the negotiated format (`mix_format_`, `none` when
null), the buffer pointer (`none` models null `data`), the frame count, and
the one-time-warning latch (the function-local `static bool warned`).

Returns the updated warning latch, the callback invocation (if any), and
whether the warning was emitted by this call. -/
def processAudioData (callback : Bool) (fmt : Option WAVEFORMATEX)
    (data : Option RawBuffer) (frames : Nat) (warned : Bool) :
    Bool × Option CallbackInvocation × Bool :=
  match fmt, data with
  | some f, some d =>
    if callback = false ∨ frames = 0 then (warned, none, false)
    else
      let sampleCount := frames * f.nChannels
      let byteLen := sampleCount * 4
      if f.wFormatTag = WAVE_FORMAT_IEEE_FLOAT ∧ f.wBitsPerSample = 32 then
        (warned,
         some ⟨d.asFloat32.take sampleCount, byteLen, f.nChannels, f.nSamplesPerSec⟩,
         false)
      else if f.wFormatTag = WAVE_FORMAT_PCM ∧ f.wBitsPerSample = 16 then
        (warned,
         some ⟨(d.asInt16.take sampleCount).map normalizeInt16, byteLen,
               f.nChannels, f.nSamplesPerSec⟩,
         false)
      else if f.wFormatTag = WAVE_FORMAT_PCM ∧ f.wBitsPerSample = 32 then
        (warned,
         some ⟨(d.asInt32.take sampleCount).map normalizeInt32, byteLen,
               f.nChannels, f.nSamplesPerSec⟩,
         false)
      else
        (true,
         some ⟨d.asFloat32.take sampleCount, byteLen, f.nChannels, f.nSamplesPerSec⟩,
         !warned)
  | _, _ => (warned, none, false)

/-- A run of the normaliser over a sequence of buffers, threading the
one-time-warning latch; returns the final latch and the number of warnings
emitted over the whole run. -/
def runBuffers (callback : Bool) (fmt : Option WAVEFORMATEX)
    (warned : Bool) : List (Option RawBuffer × Nat) → Bool × Nat
  | [] => (warned, 0)
  | (d, n) :: rest =>
    let r := processAudioData callback fmt d n warned
    let rec' := runBuffers callback fmt r.1 rest
    (rec'.1, (if r.2.2 then 1 else 0) + rec'.2)

/-! ## OS environment and `AudioTap` state

Every fallible OS/COM call made during activation is an input supplied by an
`Env` record; the mutable members of `AudioTap` become an explicit state. -/

/-- Windows process-access rights used by `CheckTargetProcessExists`. -/
def PROCESS_QUERY_LIMITED_INFORMATION : Nat := 0x1000

def PROCESS_QUERY_INFORMATION : Nat := 0x0400

def PROCESS_VM_READ : Nat := 0x0010

def WAIT_OBJECT_0 : Nat := 0

def WAIT_TIMEOUT : Nat := 0x102

/-- The fixed activation timeout passed to `WaitForSingleObject`
(`audio_tap.cpp:274`). -/
def ACTIVATE_TIMEOUT_MS : Nat := 10000

/-- Outcomes of the OS/COM calls the activation path makes, as inputs. -/
structure Env where
  /-- `OpenProcess access pid` succeeds. -/
  openProcess : Nat → Nat → Bool
  /-- `CreateToolhelp32Snapshot` succeeds. -/
  snapshotCreateOk : Bool
  /-- pids listed by the process snapshot. -/
  snapshotPids : List Nat
  /-- both `CreateEvent` calls in `RuntimeClassInitialize` succeed. -/
  eventsOk : Bool
  /-- `CoInitializeEx` succeeds. -/
  comInitOk : Bool
  /-- `MFStartup` succeeds. -/
  mfStartupOk : Bool
  /-- `ActivateAudioInterfaceAsync` itself succeeds. -/
  asyncIssueOk : Bool
  /-- when (ms) the completion handler signals `activate_completed_event_`;
  `none` if it never posts. -/
  completionSignalAt : Option Nat
  /-- `GetActivateResult` succeeds. -/
  getActivateResultOk : Bool
  /-- the activation HRESULT delivered to the handler is a success. -/
  activateHrOk : Bool
  /-- the activated interface casts to `IAudioClient`. -/
  asAudioClientOk : Bool
  /-- `CoTaskMemAlloc` of the mix format succeeds. -/
  allocFormatOk : Bool
  /-- `IAudioClient::Initialize` succeeds. -/
  clientInitOk : Bool
  /-- `IAudioClient::GetBufferSize` succeeds. -/
  getBufferSizeOk : Bool
  /-- `IAudioClient::GetService(IAudioCaptureClient)` succeeds. -/
  getServiceOk : Bool
  /-- `IAudioClient::SetEventHandle` succeeds. -/
  setEventHandleOk : Bool
  /-- `IAudioClient::Start` succeeds. -/
  clientStartOk : Bool

/-- The access levels tried by `CheckTargetProcessExists`, lowest privilege
first (`audio_tap.cpp:175-179`). -/
def accessLevels : List Nat :=
  [PROCESS_QUERY_LIMITED_INFORMATION,
   PROCESS_QUERY_INFORMATION,
   PROCESS_QUERY_INFORMATION + PROCESS_VM_READ]

/-- The first loop of `CheckTargetProcessExists`: try `OpenProcess` at each
access level in order, returning at the first success. -/
def tryOpenAtLevels (env : Env) (pid : Nat) : List Nat → Bool
  | [] => false
  | a :: rest => if env.openProcess a pid then true else tryOpenAtLevels env pid rest

/-- `AudioTap::CheckTargetProcessExists` (`audio_tap.cpp:164-222`). Returns
the result together with whether the snapshot fallback was consulted. -/
def checkTargetProcessExists (env : Env) (pid : Nat) : Bool × Bool :=
  if tryOpenAtLevels env pid accessLevels then (true, false)
  else if ¬ env.snapshotCreateOk then (false, true)
  else (env.snapshotPids.contains pid, true)

/-- The mutable members of `AudioTap` that the modelled paths touch. -/
structure AudioTapState where
  targetPid : Nat
  /-- `is_capturing_` -/
  isCapturing : Bool
  /-- `stop_capture_` -/
  stopFlagSet : Bool
  /-- `error_message_` -/
  errorMessage : String
  /-- `callback_` registered -/
  callback : Bool
  /-- `audio_client_` non-null -/
  audioClient : Bool
  /-- `capture_client_` non-null -/
  captureClient : Bool
  /-- `mix_format_` (`none` = null) -/
  mixFormat : Option WAVEFORMATEX
  /-- capture thread spawned and not yet joined -/
  threadRunning : Bool
deriving Repr, DecidableEq

/-- `AudioTap::SetError` (`audio_tap.cpp:158-162`). -/
def setError (st : AudioTapState) (msg : String) : AudioTapState :=
  { st with errorMessage := msg }

/-- A freshly constructed `AudioTap` for `pid` (the member initialisers of
the constructor, `audio_tap.cpp:31-34`). -/
def freshTap (pid : Nat) : AudioTapState :=
  { targetPid := pid, isCapturing := false, stopFlagSet := false,
    errorMessage := "", callback := false, audioClient := false,
    captureClient := false, mixFormat := none, threadRunning := false }

/-- `AudioTap` construction plus `RuntimeClassInitialize`
(`audio_tap.cpp:31-48`): fails (so `MakeAndInitialize` fails) when an event
cannot be created. -/
def mkAudioTap (env : Env) (pid : Nat) : Option AudioTapState :=
  if env.eventsOk then some (freshTap pid) else none

/-- `WaitForSingleObject` on a one-shot event: given when (if ever) the event
is signalled and the timeout, return the wait result and the elapsed ms. -/
def waitForSingleObject (signalAt : Option Nat) (timeoutMs : Nat) : Nat × Nat :=
  match signalAt with
  | some t => if t ≤ timeoutMs then (WAIT_OBJECT_0, t) else (WAIT_TIMEOUT, timeoutMs)
  | none => (WAIT_TIMEOUT, timeoutMs)

/-- `AudioTap::InitializeAudioClientInCallback` (`audio_tap.cpp:324-384`):
allocate and fill the canonical mix format, initialize the client, fetch the
buffer size and capture client, bind the capture event. -/
def initializeAudioClientInCallback (env : Env) (st : AudioTapState) :
    Bool × AudioTapState :=
  if ¬ env.allocFormatOk then (false, st)
  else
    let st := { st with mixFormat := some canonicalMixFormat }
    if ¬ env.clientInitOk then
      (false, setError st "Audio client initialization failed - HRESULT: 0x")
    else if ¬ env.getBufferSizeOk then (false, st)
    else if ¬ env.getServiceOk then (false, st)
    else
      let st := { st with captureClient := true }
      if ¬ env.setEventHandleOk then (false, st)
      else (true, st)

/-- `AudioTap::ActivateCompleted` (`audio_tap.cpp:284-322`), as run by the OS
once the asynchronous operation completes; the returned flag is the success
of `activate_result_`. -/
def activateCompleted (env : Env) (st : AudioTapState) : Bool × AudioTapState :=
  if ¬ env.getActivateResultOk then (false, st)
  else if ¬ env.activateHrOk then
    (false, setError st "Audio interface activation failed - HRESULT: 0x")
  else if ¬ env.asAudioClientOk then
    (false, setError st "Failed to get IAudioClient interface")
  else
    initializeAudioClientInCallback env { st with audioClient := true }

/-- `AudioTap::ActivateProcessLoopbackAudioClient` (`audio_tap.cpp:224-282`).
Returns success, the new state, and the ms the calling thread spent blocked
in the completion wait. -/
def activateProcessLoopbackAudioClient (env : Env) (st : AudioTapState) :
    Bool × AudioTapState × Nat :=
  if ¬ (checkTargetProcessExists env st.targetPid).1 then
    (false, setError st "Target process does not exist or cannot be accessed", 0)
  else if ¬ env.asyncIssueOk then
    (false, setError st "Failed to activate audio interface async - HRESULT: 0x", 0)
  else
    let w := waitForSingleObject env.completionSignalAt ACTIVATE_TIMEOUT_MS
    if w.1 ≠ WAIT_OBJECT_0 then
      (false, setError st "Timeout waiting for audio interface activation", w.2)
    else
      let r := activateCompleted env st
      (r.1, r.2, w.2)

/-- `AudioTap::Initialize` (`audio_tap.cpp:70-95`): COM, Media Foundation,
then activation. -/
def tapInitialize (env : Env) (st : AudioTapState) : Bool × AudioTapState × Nat :=
  if ¬ env.comInitOk then (false, setError st "Failed to initialize COM", 0)
  else if ¬ env.mfStartupOk then
    (false, setError st "Failed to initialize Media Foundation", 0)
  else activateProcessLoopbackAudioClient env st

/-- `AudioTap::Start` (`audio_tap.cpp:97-123`). -/
def tapStart (env : Env) (st : AudioTapState) : Bool × AudioTapState :=
  if st.isCapturing then (false, st)
  else if ¬ (st.audioClient ∧ st.captureClient) then
    (false, setError st "Audio client not initialized")
  else
    let st := { st with callback := true }
    if ¬ env.clientStartOk then (false, setError st "Failed to start audio client")
    else (true, { st with isCapturing := true, stopFlagSet := false,
                          threadRunning := true })

/-- Observable actions of `AudioTap::Stop`, in program order. -/
inductive StopEvent where
  /-- `stop_capture_.store(true)` (with `is_capturing_.store(false)`) -/
  | setStopFlag
  /-- `capture_thread_.join()` -/
  | joinCaptureThread
  /-- `audio_client_->Stop()` -/
  | stopAudioClient
deriving Repr, DecidableEq, BEq

/-- `AudioTap::Stop` (`audio_tap.cpp:125-142`): new state plus the ordered
trace of its actions. -/
def tapStop (st : AudioTapState) : AudioTapState × List StopEvent :=
  if ¬ st.isCapturing then (st, [])
  else
    ({ st with isCapturing := false, stopFlagSet := true, threadRunning := false },
     [StopEvent.setStopFlag, StopEvent.joinCaptureThread] ++
       (if st.audioClient then [StopEvent.stopAudioClient] else []))

/-- The outer loop of `AudioTap::CaptureThreadProc` (`audio_tap.cpp:389`):
`while (!stop_capture_.load())`. `stopFlag i` is the value the atomic load
observes at iteration `i`; with `fuel` iterations of budget starting at
iteration `i`, return the iteration whose top-of-loop test observed the flag
true and so exited, if any. -/
def captureLoopExit (stopFlag : Nat → Bool) : Nat → Nat → Option Nat
  | 0, _ => none
  | fuel + 1, i => if stopFlag i then some i else captureLoopExit stopFlag fuel (i + 1)

/-! ## `WinAudioCapture` session layer -/

/-- The members of `WinAudioCapture` the Start/Stop paths touch. -/
structure WinCaptureState where
  /-- `capturing_` -/
  capturing : Bool
  /-- `callback_` set -/
  callback : Bool
  /-- `current_pid_` -/
  currentPid : Nat
  /-- `process_capture_` (`none` = null ComPtr) -/
  processCapture : Option AudioTapState
deriving Repr, DecidableEq

/-- A freshly constructed `WinAudioCapture`. -/
def initialWinState : WinCaptureState :=
  { capturing := false, callback := false, currentPid := 0, processCapture := none }

/-- `WinAudioCapture::StartCapture` (`win_audio_capture.cpp:58-82`). Returns
success, the new session state, and the ms spent blocked in activation. -/
def startCapture (env : Env) (s : WinCaptureState) (pid : Nat) :
    Bool × WinCaptureState × Nat :=
  if s.capturing then (false, s, 0)
  else
    let s := { s with callback := true, currentPid := pid }
    match mkAudioTap env pid with
    | none => (false, s, 0)
    | some tap0 =>
      let s := { s with processCapture := some tap0 }
      let ini := tapInitialize env tap0
      let s := { s with processCapture := some ini.2.1 }
      if ¬ ini.1 then (false, s, ini.2.2)
      else
        let sta := tapStart env ini.2.1
        let s := { s with processCapture := some sta.2 }
        if ¬ sta.1 then (false, s, ini.2.2)
        else (true, { s with capturing := true }, ini.2.2)

/-- `WinAudioCapture::StopCapture` (`win_audio_capture.cpp:84-99`) together
with `CleanupCapture`: stop and release the tap, clear callback and pid. -/
def stopCapture (s : WinCaptureState) : Bool × WinCaptureState :=
  if ¬ s.capturing then (false, s)
  else
    (true, { capturing := false, callback := false, currentPid := 0,
             processCapture := none })

/-- Session-level operations available to a (sequential) caller. -/
inductive Op where
  | start (env : Env) (pid : Nat)
  | stop

/-- Run a sequence of Start/Stop calls against the session. -/
def runOps (s : WinCaptureState) : List Op → WinCaptureState
  | [] => s
  | Op.start env pid :: rest => runOps (startCapture env s pid).2.1 rest
  | Op.stop :: rest => runOps (stopCapture s).2 rest

/-- States reachable from a fresh session by Start/Stop calls. -/
def Reachable (s : WinCaptureState) : Prop :=
  ∃ ops : List Op, runOps initialWinState ops = s

/-! ## Spec-side normaliser (for the refinement claim C1) -/

/-- Formats the normaliser handles by an explicit conversion rule
(everything else falls into the defensive reinterpret-as-float branch). -/
def isHandledFormat (f : WAVEFORMATEX) : Bool :=
  (f.wFormatTag == WAVE_FORMAT_IEEE_FLOAT && f.wBitsPerSample == 32) ||
  (f.wFormatTag == WAVE_FORMAT_PCM && (f.wBitsPerSample == 16 || f.wBitsPerSample == 32))

/-- The format-normalisation rules as the spec states them (§4.4): 32-bit
float passes through unchanged, 16-bit integer is divided by 32768.0, 32-bit
integer is divided by 2^31, anything else is reinterpreted as float and
passed through. Written from the spec's words, to be compared against
`processAudioData`. -/
def specFormatNormalizer (tag bits : Nat) (d : RawBuffer) (sampleCount : Nat) :
    List ℚ :=
  if tag = WAVE_FORMAT_IEEE_FLOAT ∧ bits = 32 then d.asFloat32.take sampleCount
  else if tag = WAVE_FORMAT_PCM ∧ bits = 16 then
    (d.asInt16.take sampleCount).map (fun s : Int => (s : ℚ) / 32768)
  else if tag = WAVE_FORMAT_PCM ∧ bits = 32 then
    (d.asInt32.take sampleCount).map (fun s : Int => (s : ℚ) / 2147483648)
  else d.asFloat32.take sampleCount

/-! ## Helper lemmas about the one-time warning latch -/

theorem processAudioData_warned_true (cb : Bool) (fmt : Option WAVEFORMATEX)
    (d : Option RawBuffer) (n : Nat) :
    (processAudioData cb fmt d n true).1 = true ∧
      (processAudioData cb fmt d n true).2.2 = false := by
  cases fmt with
  | none => cases d <;> simp [processAudioData]
  | some f =>
    cases d with
    | none => simp [processAudioData]
    | some b =>
      simp only [processAudioData]
      split_ifs <;> simp

theorem processAudioData_no_emit_latch (cb : Bool) (fmt : Option WAVEFORMATEX)
    (d : Option RawBuffer) (n : Nat)
    (h : (processAudioData cb fmt d n false).2.2 = false) :
    (processAudioData cb fmt d n false).1 = false := by
  cases fmt with
  | none => cases d <;> simp [processAudioData]
  | some f =>
    cases d with
    | none => simp [processAudioData]
    | some b =>
      simp only [processAudioData] at h ⊢
      split_ifs at h ⊢ <;> simp_all

theorem runBuffers_warned_true (cb : Bool) (fmt : Option WAVEFORMATEX) :
    ∀ bufs : List (Option RawBuffer × Nat), (runBuffers cb fmt true bufs).2 = 0 := by
  intro bufs
  induction bufs with
  | nil => simp [runBuffers]
  | cons b rest ih =>
    obtain ⟨d, n⟩ := b
    have h := processAudioData_warned_true cb fmt d n
    simp only [runBuffers, h.1, h.2]
    simpa using ih

theorem processAudioData_emit_latch (cb : Bool) (fmt : Option WAVEFORMATEX)
    (d : Option RawBuffer) (n : Nat) (w : Bool)
    (h : (processAudioData cb fmt d n w).2.2 = true) :
    (processAudioData cb fmt d n w).1 = true := by
  cases fmt with
  | none => cases d <;> simp_all [processAudioData]
  | some f =>
    cases d with
    | none => simp_all [processAudioData]
    | some b =>
      simp only [processAudioData] at h ⊢
      split_ifs at h ⊢ <;> simp_all

theorem runBuffers_warn_le_one (cb : Bool) (fmt : Option WAVEFORMATEX) :
    ∀ bufs : List (Option RawBuffer × Nat), (runBuffers cb fmt false bufs).2 ≤ 1 := by
  intro bufs
  induction bufs with
  | nil => simp [runBuffers]
  | cons b rest ih =>
    obtain ⟨d, n⟩ := b
    by_cases h : (processAudioData cb fmt d n false).2.2 = true
    · have hl := processAudioData_emit_latch cb fmt d n false h
      simp only [runBuffers, h, hl, if_true]
      simp [runBuffers_warned_true cb fmt rest]
    · have h' : (processAudioData cb fmt d n false).2.2 = false := by
        revert h; cases (processAudioData cb fmt d n false).2.2 <;> simp
      have hl := processAudioData_no_emit_latch cb fmt d n h'
      simp only [runBuffers, h', hl, if_false]
      simpa using ih

/-- C1: for every buffer handed to `ProcessAudioData` with negotiated format
tag `t` and bit depth `b`: IEEE float with `b = 32` passes samples through
unchanged; integer PCM with `b = 16` divides each sample by 32768.0; integer
PCM with `b = 32` divides each sample by 2^31; any other combination
reinterprets the data as 32-bit float and passes it through, emitting the
one-time warning at most once over a whole run; the normaliser is total and
always produces the spec-described output (it never fails). -/
theorem C1_format_normalizer_rules :
    (∀ (f : WAVEFORMATEX) (d : RawBuffer) (frames : Nat) (warned : Bool),
      frames ≠ 0 →
      processAudioData true (some f) (some d) frames warned =
        (warned || !isHandledFormat f,
         some { samples := specFormatNormalizer f.wFormatTag f.wBitsPerSample d
                  (frames * f.nChannels),
                byteLen := frames * f.nChannels * 4,
                channels := f.nChannels,
                sampleRate := f.nSamplesPerSec },
         !isHandledFormat f && !warned)) ∧
    (∀ (cb : Bool) (fmt : Option WAVEFORMATEX)
       (bufs : List (Option RawBuffer × Nat)),
      (runBuffers cb fmt false bufs).2 ≤ 1) := by
  constructor
  · intro f d frames warned hfr
    have hguard : ¬ (true = false ∨ frames = 0) := by simp [hfr]
    simp only [processAudioData, specFormatNormalizer, if_neg hguard]
    split_ifs with h1 h2 h3
    · have hh : isHandledFormat f = true := by
        simp [isHandledFormat, h1.1, h1.2]
      simp only [hh, Bool.not_true, Bool.or_false, Bool.false_and]
    · have hh : isHandledFormat f = true := by
        simp [isHandledFormat, h2.1, h2.2]
      simp only [hh, Bool.not_true, Bool.or_false, Bool.false_and]
      rfl
    · have hh : isHandledFormat f = true := by
        simp [isHandledFormat, h3.1, h3.2]
      simp only [hh, Bool.not_true, Bool.or_false, Bool.false_and]
      rfl
    · have hh : isHandledFormat f = false := by
        have hp : ¬ isHandledFormat f = true := by
          simp only [isHandledFormat, Bool.or_eq_true, Bool.and_eq_true,
            beq_iff_eq]
          tauto
        simpa using hp
      simp only [hh, Bool.not_false, Bool.or_true, Bool.true_and]
  · intro cb fmt bufs
    exact runBuffers_warn_le_one cb fmt bufs

/-- Witness for C1 at a concrete input: a two-frame stereo buffer in each of
the four format classes, and a concrete run. -/
theorem C1_format_normalizer_rules_witness :
    (2 : Nat) ≠ 0 ∧
      processAudioData true (some canonicalMixFormat)
        (some ⟨[1/2, -1/4, 0, 1], [100, -100, 5, -5], [7, -7, 9, -9]⟩) 2 false =
        (false || !isHandledFormat canonicalMixFormat,
         some { samples := specFormatNormalizer canonicalMixFormat.wFormatTag
                  canonicalMixFormat.wBitsPerSample
                  ⟨[1/2, -1/4, 0, 1], [100, -100, 5, -5], [7, -7, 9, -9]⟩
                  (2 * canonicalMixFormat.nChannels),
                byteLen := 2 * canonicalMixFormat.nChannels * 4,
                channels := canonicalMixFormat.nChannels,
                sampleRate := canonicalMixFormat.nSamplesPerSec },
         !isHandledFormat canonicalMixFormat && !false) :=
  ⟨by decide,
   C1_format_normalizer_rules.1 canonicalMixFormat
     ⟨[1/2, -1/4, 0, 1], [100, -100, 5, -5], [7, -7, 9, -9]⟩ 2 false (by decide)⟩

/-! ## C9: 16-bit round trip -/

/-- Modelled from the spec: the denormalisation direction of the §8
round-trip property ("normalize-then-denormalize") has no counterpart in the
repository's sources; per the spec it multiplies the normalised sample by
32768 and rounds back to an integer. -/
def denormalizeInt16 (x : ℚ) : Int := round (x * 32768)

/-- C9: for every 16-bit sample value `s ∈ [-32768, 32767]`, normalising by
`normalizeInt16` (the division by 32768.0 in `ProcessAudioData`) and then
denormalising reproduces `s` within ±1 LSB (in fact exactly). -/
theorem C9_normalizer_round_trip (s : Int) (h1 : -32768 ≤ s) (h2 : s ≤ 32767) :
    |denormalizeInt16 (normalizeInt16 s) - s| ≤ 1 := by
  have hmul : normalizeInt16 s * 32768 = (s : ℚ) := by
    unfold normalizeInt16
    field_simp
  unfold denormalizeInt16
  rw [hmul, round_intCast]
  simp

/-- Witness for C9 at `s = -32768`. -/
theorem C9_normalizer_round_trip_witness :
    -32768 ≤ (-32768 : Int) ∧ (-32768 : Int) ≤ 32767 ∧
      |denormalizeInt16 (normalizeInt16 (-32768)) - (-32768)| ≤ 1 :=
  ⟨by decide, by decide,
   C9_normalizer_round_trip (-32768) (by decide) (by decide)⟩

/-! ## C2: activation timeout -/

/-- C2: if the asynchronous activation backend never posts the completion
signal, `StartCapture` returns false exactly when the fixed 10-second
activation timeout elapses (the calling thread blocks for exactly
`ACTIVATE_TIMEOUT_MS` = 10000 ms, not less), and the tap's
`GetErrorMessage()` afterwards contains a timeout indication. -/
theorem C2_activation_timeout (env : Env) (s : WinCaptureState) (pid : Nat)
    (hsig : env.completionSignalAt = none)
    (hev : env.eventsOk = true) (hcom : env.comInitOk = true)
    (hmf : env.mfStartupOk = true) (hasync : env.asyncIssueOk = true)
    (hexists : (checkTargetProcessExists env pid).1 = true)
    (hidle : s.capturing = false) :
    (startCapture env s pid).1 = false ∧
    (startCapture env s pid).2.2 = ACTIVATE_TIMEOUT_MS ∧
    ∃ tap, (startCapture env s pid).2.1.processCapture = some tap ∧
      tap.errorMessage = "Timeout waiting for audio interface activation" ∧
      "Timeout".toList <:+: tap.errorMessage.toList := by
  have htap : mkAudioTap env pid = some (freshTap pid) := by
    simp [mkAudioTap, hev]
  have hwait : waitForSingleObject env.completionSignalAt ACTIVATE_TIMEOUT_MS =
      (WAIT_TIMEOUT, ACTIVATE_TIMEOUT_MS) := by
    rw [hsig]; rfl
  have hini : tapInitialize env (freshTap pid) =
      (false, setError (freshTap pid) "Timeout waiting for audio interface activation",
       ACTIVATE_TIMEOUT_MS) := by
    unfold tapInitialize activateProcessLoopbackAudioClient
    have hp : (freshTap pid).targetPid = pid := rfl
    rw [hp]
    simp [hcom, hmf, hexists, hasync, hwait, WAIT_TIMEOUT, WAIT_OBJECT_0]
  have hmain : startCapture env s pid =
      (false,
       { s with callback := true, currentPid := pid,
                processCapture := some (setError (freshTap pid)
                  "Timeout waiting for audio interface activation") },
       ACTIVATE_TIMEOUT_MS) := by
    unfold startCapture
    rw [if_neg (by simp [hidle]), htap]
    simp [hini]
  rw [hmain]
  refine ⟨rfl, rfl,
    setError (freshTap pid) "Timeout waiting for audio interface activation",
    rfl, rfl, ?_⟩
  show "Timeout".toList <:+:
    ("Timeout waiting for audio interface activation").toList
  decide

/-- Witness for C2: a concrete environment whose completion handler never
posts, against a fresh session. -/
theorem C2_activation_timeout_witness :
    (startCapture
      { openProcess := fun _ _ => true, snapshotCreateOk := true,
        snapshotPids := [], eventsOk := true, comInitOk := true,
        mfStartupOk := true, asyncIssueOk := true, completionSignalAt := none,
        getActivateResultOk := true, activateHrOk := true,
        asAudioClientOk := true, allocFormatOk := true, clientInitOk := true,
        getBufferSizeOk := true, getServiceOk := true, setEventHandleOk := true,
        clientStartOk := true }
      initialWinState 1234).1 = false ∧
    (startCapture
      { openProcess := fun _ _ => true, snapshotCreateOk := true,
        snapshotPids := [], eventsOk := true, comInitOk := true,
        mfStartupOk := true, asyncIssueOk := true, completionSignalAt := none,
        getActivateResultOk := true, activateHrOk := true,
        asAudioClientOk := true, allocFormatOk := true, clientInitOk := true,
        getBufferSizeOk := true, getServiceOk := true, setEventHandleOk := true,
        clientStartOk := true }
      initialWinState 1234).2.2 = ACTIVATE_TIMEOUT_MS :=
  ⟨(C2_activation_timeout _ initialWinState 1234 rfl rfl rfl rfl rfl
      (by decide) rfl).1,
   (C2_activation_timeout _ initialWinState 1234 rfl rfl rfl rfl rfl
      (by decide) rfl).2.1⟩

/-! ## C3 / C4: Start non-reentrancy, Stop idempotence -/

/-- C3: while a session is already capturing, a second `StartCapture` (and
likewise a second `AudioTap::Start`) returns false immediately and leaves the
session state — including the tap handle and the registered callback — fully
undisturbed. (`Start` blocks its caller for the whole activation, so in this
sequential model the Activating phase is never observable between calls; the
guard examined is the `capturing_` / `is_capturing_` test.) -/
theorem C3_start_nonreentrant :
    (∀ (env : Env) (s : WinCaptureState) (pid : Nat),
      s.capturing = true → startCapture env s pid = (false, s, 0)) ∧
    (∀ (env : Env) (t : AudioTapState),
      t.isCapturing = true → tapStart env t = (false, t)) := by
  constructor
  · intro env s pid h
    unfold startCapture
    rw [if_pos h]
  · intro env t h
    unfold tapStart
    rw [if_pos h]

/-- Witness for C3: a concrete capturing session and tap. -/
theorem C3_start_nonreentrant_witness :
    ({ capturing := true, callback := true, currentPid := 7,
       processCapture := some (freshTap 7) } : WinCaptureState).capturing = true ∧
    startCapture
      { openProcess := fun _ _ => true, snapshotCreateOk := true,
        snapshotPids := [], eventsOk := true, comInitOk := true,
        mfStartupOk := true, asyncIssueOk := true,
        completionSignalAt := some 0, getActivateResultOk := true,
        activateHrOk := true, asAudioClientOk := true, allocFormatOk := true,
        clientInitOk := true, getBufferSizeOk := true, getServiceOk := true,
        setEventHandleOk := true, clientStartOk := true }
      { capturing := true, callback := true, currentPid := 7,
        processCapture := some (freshTap 7) } 9 =
      (false,
       { capturing := true, callback := true, currentPid := 7,
         processCapture := some (freshTap 7) }, 0) :=
  ⟨rfl, C3_start_nonreentrant.1 _
    { capturing := true, callback := true, currentPid := 7,
      processCapture := some (freshTap 7) } 9 rfl⟩

/-- C4: whenever no capture is active, `StopCapture` (and `AudioTap::Stop`)
returns false / does nothing and has zero observable side effects; stopping
twice in a row is idempotent: the second call is always a failing no-op. -/
theorem C4_stop_idle_noop :
    (∀ s : WinCaptureState, s.capturing = false → stopCapture s = (false, s)) ∧
    (∀ s : WinCaptureState,
      stopCapture (stopCapture s).2 = (false, (stopCapture s).2)) ∧
    (∀ t : AudioTapState, t.isCapturing = false → tapStop t = (t, [])) := by
  have hidle : ∀ s : WinCaptureState, s.capturing = false →
      stopCapture s = (false, s) := by
    intro s h
    unfold stopCapture
    rw [if_pos (by simp [h])]
  have hafter : ∀ s : WinCaptureState, (stopCapture s).2.capturing = false := by
    intro s
    unfold stopCapture
    by_cases h : s.capturing = true
    · rw [if_neg (by simp [h])]
    · rw [if_pos (by simpa using h)]
      simpa using h
  refine ⟨hidle, ?_, ?_⟩
  · intro s
    exact hidle _ (hafter s)
  · intro t h
    unfold tapStop
    rw [if_pos (by simp [h])]

/-- Witness for C4: the fresh session (Idle) and a fresh tap. -/
theorem C4_stop_idle_noop_witness :
    initialWinState.capturing = false ∧
      stopCapture initialWinState = (false, initialWinState) ∧
      (freshTap 3).isCapturing = false ∧
      tapStop (freshTap 3) = (freshTap 3, []) :=
  ⟨rfl, C4_stop_idle_noop.1 initialWinState rfl, rfl,
   C4_stop_idle_noop.2.2 (freshTap 3) rfl⟩

/-! ## C5: absent process -/

/-- A pid absent from the system: no `OpenProcess` succeeds at any access
level, and the process snapshot does not list it. -/
def pidAbsent (env : Env) (pid : Nat) : Prop :=
  (∀ a : Nat, env.openProcess a pid = false) ∧
    env.snapshotPids.contains pid = false

theorem tryOpenAtLevels_iff (env : Env) (pid : Nat) :
    ∀ L : List Nat, tryOpenAtLevels env pid L = true ↔
      ∃ a ∈ L, env.openProcess a pid = true := by
  intro L
  induction L with
  | nil => simp [tryOpenAtLevels]
  | cons a rest ih =>
    unfold tryOpenAtLevels
    by_cases h : env.openProcess a pid = true
    · simp [h]
    · rw [if_neg (by simpa using h)]
      simp only [List.mem_cons, ih]
      constructor
      · rintro ⟨b, hb, hbo⟩
        exact ⟨b, Or.inr hb, hbo⟩
      · rintro ⟨b, hb | hb, hbo⟩
        · exact absurd (hb ▸ hbo) h
        · exact ⟨b, hb, hbo⟩

theorem checkExists_absent (env : Env) (pid : Nat) (h : pidAbsent env pid) :
    checkTargetProcessExists env pid = (false, true) := by
  have hopen : tryOpenAtLevels env pid accessLevels = false := by
    rw [Bool.eq_false_iff]
    intro hc
    obtain ⟨a, _, ha⟩ := (tryOpenAtLevels_iff env pid accessLevels).1 hc
    rw [h.1 a] at ha
    exact Bool.false_ne_true ha
  unfold checkTargetProcessExists
  rw [if_neg (by simp [hopen])]
  by_cases hs : env.snapshotCreateOk = true
  · rw [if_neg (by simp [hs])]
    rw [h.2]
  · rw [if_pos (by simpa using hs)]

/-- C5: for every pid absent from the system, `StartCapture(pid, cb)` returns
false, the session remains non-capturing (Idle), and the tap's
`GetErrorMessage()` mentions that the target process does not exist;
moreover existence is decided by trying `OpenProcess` at the progressively
higher access levels of `accessLevels` and, only when every attempt fails,
scanning the full process snapshot for the pid. -/
theorem C5_absent_process :
    (∀ (env : Env) (s : WinCaptureState) (pid : Nat),
      pidAbsent env pid → s.capturing = false → env.eventsOk = true →
      env.comInitOk = true → env.mfStartupOk = true →
      (startCapture env s pid).1 = false ∧
      (startCapture env s pid).2.1.capturing = false ∧
      ∃ tap, (startCapture env s pid).2.1.processCapture = some tap ∧
        tap.errorMessage = "Target process does not exist or cannot be accessed" ∧
        "does not exist".toList <:+: tap.errorMessage.toList) ∧
    (∀ (env : Env) (pid : Nat),
      (checkTargetProcessExists env pid).2 = true ↔
        tryOpenAtLevels env pid accessLevels = false) ∧
    (∀ (env : Env) (pid : Nat), env.snapshotCreateOk = true →
      ((checkTargetProcessExists env pid).1 = true ↔
        tryOpenAtLevels env pid accessLevels = true ∨
          env.snapshotPids.contains pid = true)) ∧
    (∀ (env : Env) (pid : Nat),
      tryOpenAtLevels env pid accessLevels = true ↔
        ∃ a ∈ accessLevels, env.openProcess a pid = true) := by
  refine ⟨?_, ?_, ?_, fun env pid => tryOpenAtLevels_iff env pid accessLevels⟩
  · intro env s pid habs hidle hev hcom hmf
    have htap : mkAudioTap env pid = some (freshTap pid) := by
      simp [mkAudioTap, hev]
    have hini : tapInitialize env (freshTap pid) =
        (false, setError (freshTap pid)
          "Target process does not exist or cannot be accessed", 0) := by
      unfold tapInitialize activateProcessLoopbackAudioClient
      have hp : (freshTap pid).targetPid = pid := rfl
      rw [hp, checkExists_absent env pid habs]
      simp [hcom, hmf]
    have hmain : startCapture env s pid =
        (false,
         { s with callback := true, currentPid := pid,
                  processCapture := some (setError (freshTap pid)
                    "Target process does not exist or cannot be accessed") },
         0) := by
      unfold startCapture
      rw [if_neg (by simp [hidle]), htap]
      simp [hini]
    rw [hmain]
    refine ⟨rfl, by simpa using hidle,
      setError (freshTap pid) "Target process does not exist or cannot be accessed",
      rfl, rfl, ?_⟩
    show "does not exist".toList <:+:
      ("Target process does not exist or cannot be accessed").toList
    decide
  · intro env pid
    unfold checkTargetProcessExists
    by_cases h : tryOpenAtLevels env pid accessLevels = true
    · rw [if_pos h]
      simp [h]
    · rw [if_neg h]
      by_cases hs : env.snapshotCreateOk = true
      · rw [if_neg (by simp [hs])]
        simpa using h
      · rw [if_pos (by simpa using hs)]
        simpa using h
  · intro env pid hs
    unfold checkTargetProcessExists
    by_cases h : tryOpenAtLevels env pid accessLevels = true
    · rw [if_pos h]
      simp [h]
    · rw [if_neg h, if_neg (by simp [hs])]
      simp [Bool.eq_false_iff.2 h]

/-- Witness for C5: a concrete environment in which pid 77 is unopenable at
every level and missing from the snapshot. -/
theorem C5_absent_process_witness :
    (startCapture
      { openProcess := fun _ _ => false, snapshotCreateOk := true,
        snapshotPids := [1, 2, 3], eventsOk := true, comInitOk := true,
        mfStartupOk := true, asyncIssueOk := true, completionSignalAt := some 0,
        getActivateResultOk := true, activateHrOk := true,
        asAudioClientOk := true, allocFormatOk := true, clientInitOk := true,
        getBufferSizeOk := true, getServiceOk := true, setEventHandleOk := true,
        clientStartOk := true }
      initialWinState 77).1 = false ∧
    (startCapture
      { openProcess := fun _ _ => false, snapshotCreateOk := true,
        snapshotPids := [1, 2, 3], eventsOk := true, comInitOk := true,
        mfStartupOk := true, asyncIssueOk := true, completionSignalAt := some 0,
        getActivateResultOk := true, activateHrOk := true,
        asAudioClientOk := true, allocFormatOk := true, clientInitOk := true,
        getBufferSizeOk := true, getServiceOk := true, setEventHandleOk := true,
        clientStartOk := true }
      initialWinState 77).2.1.capturing = false :=
  ⟨(C5_absent_process.1 _ initialWinState 77 ⟨fun _ => rfl, by decide⟩
      rfl rfl rfl rfl).1,
   (C5_absent_process.1 _ initialWinState 77 ⟨fun _ => rfl, by decide⟩
      rfl rfl rfl rfl).2.1⟩

/-! ## C6: canonical negotiated format -/

/-- C6: on the asynchronous-completion variant a successful activation always
initialises the client with the fixed canonical format — IEEE float, 2
channels, 48 kHz, 32 bits, with event-driven buffering among the stream
flags — and consequently a buffer of `n` frames produces exactly one
callback invocation with byte length `n * 2 * 4`, channels = 2 and
sampleRate = 48000; in particular a single 480-frame buffer yields byte
length 3840. -/
theorem C6_canonical_format :
    (∀ (env : Env) (st : AudioTapState),
      (tapInitialize env st).1 = true →
      (tapInitialize env st).2.1.mixFormat = some canonicalMixFormat) ∧
    canonicalMixFormat.wFormatTag = WAVE_FORMAT_IEEE_FLOAT ∧
    canonicalMixFormat.nChannels = 2 ∧
    canonicalMixFormat.nSamplesPerSec = 48000 ∧
    canonicalMixFormat.wBitsPerSample = 32 ∧
    clientInitStreamFlags &&& AUDCLNT_STREAMFLAGS_EVENTCALLBACK ≠ 0 ∧
    (∀ (d : RawBuffer) (frames : Nat) (warned : Bool), frames ≠ 0 →
      (processAudioData true (some canonicalMixFormat) (some d) frames
          warned).2.1 =
        some { samples := d.asFloat32.take (frames * 2),
               byteLen := frames * 2 * 4, channels := 2,
               sampleRate := 48000 }) ∧
    (∀ (d : RawBuffer) (warned : Bool),
      ((processAudioData true (some canonicalMixFormat) (some d) 480
          warned).2.1.map CallbackInvocation.byteLen) = some 3840) := by
  have hcanon : ∀ (d : RawBuffer) (frames : Nat) (warned : Bool), frames ≠ 0 →
      (processAudioData true (some canonicalMixFormat) (some d) frames
          warned).2.1 =
        some { samples := d.asFloat32.take (frames * 2),
               byteLen := frames * 2 * 4, channels := 2,
               sampleRate := 48000 } := by
    intro d frames warned hfr
    have hguard : ¬ (true = false ∨ frames = 0) := by simp [hfr]
    simp only [processAudioData, if_neg hguard]
    rw [if_pos (by exact ⟨rfl, rfl⟩)]
    rfl
  have hinit : ∀ (env : Env) (st : AudioTapState),
      (initializeAudioClientInCallback env st).1 = true →
      (initializeAudioClientInCallback env st).2.mixFormat =
        some canonicalMixFormat := by
    intro env st h
    unfold initializeAudioClientInCallback at h ⊢
    split_ifs at h ⊢ <;> simp_all [setError]
  have hcompl : ∀ (env : Env) (st : AudioTapState),
      (activateCompleted env st).1 = true →
      (activateCompleted env st).2.mixFormat = some canonicalMixFormat := by
    intro env st h
    unfold activateCompleted at h ⊢
    split_ifs at h ⊢ <;> first
      | simp_all
      | exact hinit env _ h
  have hact : ∀ (env : Env) (st : AudioTapState),
      (activateProcessLoopbackAudioClient env st).1 = true →
      (activateProcessLoopbackAudioClient env st).2.1.mixFormat =
        some canonicalMixFormat := by
    intro env st h
    unfold activateProcessLoopbackAudioClient at h ⊢
    by_cases hc : (checkTargetProcessExists env st.targetPid).1 = true
    · rw [if_neg (by simp [hc])] at h ⊢
      by_cases ha : env.asyncIssueOk = true
      · rw [if_neg (by simp [ha])] at h ⊢
        by_cases hw : (waitForSingleObject env.completionSignalAt
            ACTIVATE_TIMEOUT_MS).1 ≠ WAIT_OBJECT_0
        · rw [if_pos hw] at h
          exact absurd h (by simp)
        · rw [if_neg hw] at h ⊢
          exact hcompl env _ h
      · rw [if_pos (by simpa using ha)] at h
        exact absurd h (by simp)
    · rw [if_pos (by simpa using hc)] at h
      exact absurd h (by simp)
  refine ⟨?_, rfl, rfl, rfl, rfl, by decide, hcanon, ?_⟩
  · intro env st h
    unfold tapInitialize at h ⊢
    split_ifs at h ⊢ <;> first
      | simp_all
      | exact hact env _ h
  · intro d warned
    rw [hcanon d 480 warned (by decide)]
    rfl

/-- Witness for C6: a fully succeeding environment and a concrete 480-frame
buffer check. -/
theorem C6_canonical_format_witness :
    (tapInitialize
      { openProcess := fun _ _ => true, snapshotCreateOk := true,
        snapshotPids := [], eventsOk := true, comInitOk := true,
        mfStartupOk := true, asyncIssueOk := true, completionSignalAt := some 3,
        getActivateResultOk := true, activateHrOk := true,
        asAudioClientOk := true, allocFormatOk := true, clientInitOk := true,
        getBufferSizeOk := true, getServiceOk := true, setEventHandleOk := true,
        clientStartOk := true }
      (freshTap 1234)).1 = true ∧
    (tapInitialize
      { openProcess := fun _ _ => true, snapshotCreateOk := true,
        snapshotPids := [], eventsOk := true, comInitOk := true,
        mfStartupOk := true, asyncIssueOk := true, completionSignalAt := some 3,
        getActivateResultOk := true, activateHrOk := true,
        asAudioClientOk := true, allocFormatOk := true, clientInitOk := true,
        getBufferSizeOk := true, getServiceOk := true, setEventHandleOk := true,
        clientStartOk := true }
      (freshTap 1234)).2.1.mixFormat = some canonicalMixFormat ∧
    ((processAudioData true (some canonicalMixFormat)
        (some ⟨List.replicate 960 (1/2), [], []⟩) 480 false).2.1.map
        CallbackInvocation.byteLen) = some 3840 :=
  ⟨by decide,
   C6_canonical_format.1 _ (freshTap 1234) (by decide),
   C6_canonical_format.2.2.2.2.2.2.2 ⟨List.replicate 960 (1/2), [], []⟩ false⟩

/-! ## C10: buffers dropped by the guard -/

/-- C10: `ProcessAudioData` never invokes the user callback when the buffer
pointer is null, the frame count is zero, no callback is registered, or no
format has been negotiated — such buffers are dropped silently (state and
warning latch untouched, no warning emitted); consequently whenever the
callback does fire, the source buffer was non-null, the frame count nonzero,
and the byte length equals `frames * channels * 4`, which is positive for
every format with at least one channel. -/
theorem C10_guard_drops_invalid :
    (∀ (cb : Bool) (fmt : Option WAVEFORMATEX) (data : Option RawBuffer)
       (frames : Nat) (warned : Bool),
      cb = false ∨ fmt = none ∨ data = none ∨ frames = 0 →
      processAudioData cb fmt data frames warned = (warned, none, false)) ∧
    (∀ (cb : Bool) (fmt : Option WAVEFORMATEX) (data : Option RawBuffer)
       (frames : Nat) (warned : Bool) (inv : CallbackInvocation),
      (processAudioData cb fmt data frames warned).2.1 = some inv →
      cb = true ∧ data ≠ none ∧ frames ≠ 0 ∧
      ∃ f, fmt = some f ∧ inv.byteLen = frames * f.nChannels * 4 ∧
        (0 < f.nChannels → 0 < inv.byteLen)) := by
  constructor
  · intro cb fmt data frames warned h
    cases fmt with
    | none => cases data <;> rfl
    | some f =>
      cases data with
      | none => rfl
      | some d =>
        rcases h with h | h | h | h
        · simp [processAudioData, h]
        · exact absurd h (by simp)
        · exact absurd h (by simp)
        · simp [processAudioData, h]
  · intro cb fmt data frames warned inv h
    cases fmt with
    | none => cases data <;> simp [processAudioData] at h
    | some f =>
      cases data with
      | none => simp [processAudioData] at h
      | some d =>
        by_cases hg : cb = false ∨ frames = 0
        · rw [show processAudioData cb (some f) (some d) frames warned =
              (warned, none, false) from by simp [processAudioData, hg]] at h
          simp at h
        · simp only [processAudioData, if_neg hg] at h
          have hb : inv.byteLen = frames * f.nChannels * 4 := by
            split_ifs at h <;> (simp at h; rw [← h])
          have hcb : cb = true := by
            rcases Bool.eq_false_or_eq_true cb with hc | hc
            · exact hc
            · exact absurd (Or.inl hc) hg
          have hfr : frames ≠ 0 := fun hz => hg (Or.inr hz)
          refine ⟨hcb, by simp, hfr, f, rfl, hb, ?_⟩
          intro hch
          rw [hb]
          exact Nat.mul_pos (Nat.mul_pos (Nat.pos_of_ne_zero hfr) hch)
            (by norm_num)

/-- Witness for C10: a null-data buffer is dropped, and for a delivered
2-frame buffer the callback's source data was non-null and the frame count
nonzero. -/
theorem C10_guard_drops_invalid_witness :
    processAudioData true (some canonicalMixFormat) none 5 false =
      (false, none, false) ∧
    (some (⟨[1, 2, 3, 4], [], []⟩ : RawBuffer) : Option RawBuffer) ≠ none ∧
    (2 : Nat) ≠ 0 := by
  refine ⟨C10_guard_drops_invalid.1 true (some canonicalMixFormat) none 5 false
    (Or.inr (Or.inr (Or.inl rfl))), ?_, ?_⟩
  · exact (C10_guard_drops_invalid.2 true (some canonicalMixFormat)
      (some ⟨[1, 2, 3, 4], [], []⟩) 2 false
      { samples := [(1 : ℚ), 2, 3, 4], byteLen := 16, channels := 2,
        sampleRate := 48000 } (by decide)).2.1
  · exact (C10_guard_drops_invalid.2 true (some canonicalMixFormat)
      (some ⟨[1, 2, 3, 4], [], []⟩) 2 false
      { samples := [(1 : ℚ), 2, 3, 4], byteLen := 16, channels := 2,
        sampleRate := 48000 } (by decide)).2.2.1

/-! ## C7: tap-handle invariant -/

/-- An environment in which the target process is visible but
`ActivateAudioInterfaceAsync` itself fails, so activation aborts after the
tap object was created. -/
def envAsyncIssueFails : Env :=
  { openProcess := fun _ _ => true, snapshotCreateOk := true,
    snapshotPids := [], eventsOk := true, comInitOk := true,
    mfStartupOk := true, asyncIssueOk := false, completionSignalAt := some 0,
    getActivateResultOk := true, activateHrOk := true, asAudioClientOk := true,
    allocFormatOk := true, clientInitOk := true, getBufferSizeOk := true,
    getServiceOk := true, setEventHandleOk := true, clientStartOk := true }

/-- The handle-only-while-capturing invariant asserted by the claim. -/
def HandleInv (s : WinCaptureState) : Prop :=
  s.capturing = true → s.processCapture ≠ none

theorem startCapture_preserves_HandleInv (env : Env) (s : WinCaptureState)
    (pid : Nat) (h : HandleInv s) : HandleInv (startCapture env s pid).2.1 := by
  unfold startCapture
  by_cases hc : s.capturing = true
  · rw [if_pos hc]
    exact h
  · rw [if_neg hc]
    cases hm : mkAudioTap env pid with
    | none =>
      intro hcap
      exact absurd hcap (by simpa using hc)
    | some tap0 =>
      simp only []
      split_ifs
      · intro _; simp
      · intro _; simp
      · intro _; simp

theorem stopCapture_preserves_HandleInv (s : WinCaptureState)
    (h : HandleInv s) : HandleInv (stopCapture s).2 := by
  unfold stopCapture
  by_cases hc : s.capturing = true
  · rw [if_neg (by simp [hc])]
    intro hcap
    exact absurd hcap (by simp)
  · rw [if_pos (by simpa using hc)]
    exact h

theorem runOps_preserves_HandleInv :
    ∀ (ops : List Op) (s : WinCaptureState), HandleInv s →
      HandleInv (runOps s ops) := by
  intro ops
  induction ops with
  | nil => intro s h; exact h
  | cons op rest ih =>
    intro s h
    cases op with
    | start env pid =>
      exact ih _ (startCapture_preserves_HandleInv env s pid h)
    | stop => exact ih _ (stopCapture_preserves_HandleInv s h)

/-- C7 counterexample: starting against a backend whose asynchronous
activation call fails yields a reachable state in which Start returned
false, the session is Idle (not capturing), and yet `process_capture_` still
holds the failed tap — contradicting "non-null iff Capturing or Stopping"
and "any failed Start leaves the session holding no tap handle"
(`win_audio_capture.cpp:73-78` assigns `process_capture_` before
`Initialize()` and never resets it on the failure path). -/
theorem C7_handle_iff_counterexample :
    Reachable (startCapture envAsyncIssueFails initialWinState 42).2.1 ∧
    (startCapture envAsyncIssueFails initialWinState 42).1 = false ∧
    (startCapture envAsyncIssueFails initialWinState 42).2.1.capturing = false ∧
    (startCapture envAsyncIssueFails initialWinState 42).2.1.processCapture ≠
      none ∧
    ¬ (∀ s : WinCaptureState, Reachable s →
        (s.processCapture ≠ none ↔ s.capturing = true)) := by
  refine ⟨⟨[Op.start envAsyncIssueFails 42], rfl⟩, by decide, by decide,
    by decide, ?_⟩
  intro hclaim
  have h := hclaim (startCapture envAsyncIssueFails initialWinState 42).2.1
    ⟨[Op.start envAsyncIssueFails 42], rfl⟩
  have hcap := h.mp (by decide)
  revert hcap
  decide

/-- C7 amended: in every reachable session state, Capturing implies a
non-null tap handle, and a Stop from a capturing state nulls the handle; a
Start that returns false from Idle leaves the session non-capturing — but it
may retain the failed tap object in `process_capture_` (see the
counterexample), so the null-handle direction of the claimed iff does not
hold. -/
theorem C7_handle_invariant_amended :
    (∀ s : WinCaptureState, Reachable s → s.capturing = true →
      s.processCapture ≠ none) ∧
    (∀ s : WinCaptureState, s.capturing = true →
      (stopCapture s).2.processCapture = none) ∧
    (∀ (env : Env) (s : WinCaptureState) (pid : Nat),
      s.capturing = false → (startCapture env s pid).1 = false →
      (startCapture env s pid).2.1.capturing = false) := by
  refine ⟨?_, ?_, ?_⟩
  · rintro s ⟨ops, rfl⟩
    exact runOps_preserves_HandleInv ops initialWinState
      (fun hcap => absurd hcap (by decide))
  · intro s h
    unfold stopCapture
    rw [if_neg (by simp [h])]
  · intro env s pid hidle hfail
    unfold startCapture at hfail ⊢
    rw [if_neg (by simp [hidle])] at hfail ⊢
    cases hm : mkAudioTap env pid with
    | none =>
      simp only [hm] at hfail ⊢
      simpa using hidle
    | some tap0 =>
      simp only [hm] at hfail ⊢
      by_cases hi : (tapInitialize env tap0).1 = true
      · rw [if_neg (by simp [hi])] at hfail ⊢
        by_cases hs : (tapStart env (tapInitialize env tap0).2.1).1 = true
        · rw [if_neg (by simp [hs])] at hfail
          exact absurd hfail (by simp)
        · rw [if_pos (by simpa using hs)] at hfail ⊢
          simpa using hidle
      · rw [if_pos (by simpa using hi)] at hfail ⊢
        simpa using hidle

/-- Witness for C7 amended: the capturing state reached by one successful
Start holds a tap handle, and Stop from it nulls the handle. -/
theorem C7_handle_invariant_amended_witness :
    Reachable (startCapture
      { openProcess := fun _ _ => true, snapshotCreateOk := true,
        snapshotPids := [], eventsOk := true, comInitOk := true,
        mfStartupOk := true, asyncIssueOk := true, completionSignalAt := some 0,
        getActivateResultOk := true, activateHrOk := true,
        asAudioClientOk := true, allocFormatOk := true, clientInitOk := true,
        getBufferSizeOk := true, getServiceOk := true, setEventHandleOk := true,
        clientStartOk := true }
      initialWinState 8).2.1 ∧
    (startCapture
      { openProcess := fun _ _ => true, snapshotCreateOk := true,
        snapshotPids := [], eventsOk := true, comInitOk := true,
        mfStartupOk := true, asyncIssueOk := true, completionSignalAt := some 0,
        getActivateResultOk := true, activateHrOk := true,
        asAudioClientOk := true, allocFormatOk := true, clientInitOk := true,
        getBufferSizeOk := true, getServiceOk := true, setEventHandleOk := true,
        clientStartOk := true }
      initialWinState 8).2.1.processCapture ≠ none := by
  constructor
  · exact ⟨[Op.start _ 8], rfl⟩
  · exact C7_handle_invariant_amended.1 _ ⟨[Op.start _ 8], rfl⟩ (by decide)

/-! ## C8: Stop ordering and loop termination -/

/-- A tap in the post-activation capturing state. -/
def capturingTap : AudioTapState :=
  { targetPid := 42, isCapturing := true, stopFlagSet := false,
    errorMessage := "", callback := true, audioClient := true,
    captureClient := true, mixFormat := some canonicalMixFormat,
    threadRunning := true }

/-- C8 counterexample: `AudioTap::Stop` (`audio_tap.cpp:125-142`) sets the
stop flag and joins the capture thread FIRST, and calls
`audio_client_->Stop()` only afterwards — so the claim that Stop "first
halts the underlying audio device/client and only afterwards relies on the
watchdog-bounded wait" is false on the code: in the trace of a capturing
tap, halting the client comes strictly after the join. -/
theorem C8_stop_order_counterexample :
    (tapStop capturingTap).2 =
      [StopEvent.setStopFlag, StopEvent.joinCaptureThread,
       StopEvent.stopAudioClient] ∧
    ¬ ((tapStop capturingTap).2.indexOf StopEvent.stopAudioClient <
        (tapStop capturingTap).2.indexOf StopEvent.joinCaptureThread) := by
  decide

/-- C8 amended: when Stop is called while capturing, it first sets the
atomic stop flag, then joins the capture thread (relying on the
watchdog-bounded wait to observe the flag), and only afterwards halts the
audio client; the capture loop exits only at an iteration whose
top-of-loop test observes the stop flag true. -/
theorem C8_stop_order_amended :
    (∀ st : AudioTapState, st.isCapturing = true → st.audioClient = true →
      (tapStop st).2 = [StopEvent.setStopFlag, StopEvent.joinCaptureThread,
        StopEvent.stopAudioClient] ∧
      (tapStop st).2.indexOf StopEvent.setStopFlag <
        (tapStop st).2.indexOf StopEvent.joinCaptureThread ∧
      (tapStop st).2.indexOf StopEvent.joinCaptureThread <
        (tapStop st).2.indexOf StopEvent.stopAudioClient) ∧
    (∀ (stopFlag : Nat → Bool) (fuel i k : Nat),
      captureLoopExit stopFlag fuel i = some k → stopFlag k = true) := by
  constructor
  · intro st hcap hcli
    have htrace : (tapStop st).2 =
        [StopEvent.setStopFlag, StopEvent.joinCaptureThread,
         StopEvent.stopAudioClient] := by
      unfold tapStop
      rw [if_neg (by simp [hcap])]
      simp [hcli]
    refine ⟨htrace, ?_, ?_⟩ <;> rw [htrace] <;> decide
  · intro stopFlag fuel
    induction fuel with
    | zero => intro i k h; exact absurd h (by simp [captureLoopExit])
    | succ n ih =>
      intro i k h
      unfold captureLoopExit at h
      by_cases hf : stopFlag i = true
      · rw [if_pos hf] at h
        cases h
        exact hf
      · rw [if_neg hf] at h
        exact ih (i + 1) k h

/-- Witness for C8 amended: the concrete capturing tap and a concrete flag
schedule observed true at iteration 2. -/
theorem C8_stop_order_amended_witness :
    capturingTap.isCapturing = true ∧ capturingTap.audioClient = true ∧
    (tapStop capturingTap).2 =
      [StopEvent.setStopFlag, StopEvent.joinCaptureThread,
       StopEvent.stopAudioClient] ∧
    (fun i : Nat => decide (2 ≤ i)) 2 = true :=
  ⟨rfl, rfl, (C8_stop_order_amended.1 capturingTap rfl rfl).1,
   C8_stop_order_amended.2 (fun i => decide (2 ≤ i)) 5 0 2 (by decide)⟩

end AudioTapModel
